import Mathlib

/-!
Verification of the angular-snippet-generator core pipeline: a shallow
embedding of the snippet synthesizer (src/snippet.ts), the string helpers
(src/strings.ts), the AST node utilities (src/nodes.ts) and the extraction
entry points (src/parser.ts), with theorems checking the specification's
claims about them.

Strings are Lean `String`s; the TypeScript `undefined` possibility of a
property's type is an `Option String`; a TS function returning
`T | undefined` becomes `Option T`.  The external TypeScript parser
(`ts.createSourceFile`), which this repository consumes but does not
implement, is a parameter `parse : String → SourceFile` producing a value
of the syntax-tree model defined below.
-/

namespace ASG

/-! ## strings.ts -/

/-- Embeds `upperCaseFirstCharacter` (src/strings.ts): capitalizes the first
character, returning the value unchanged when empty. -/
def upperCaseFirstCharacter (value : String := "") : String :=
  match value.data with
  | [] => value
  | c :: cs => String.mk (c.toUpper :: cs)

/-- Strip leading and trailing whitespace (JavaScript `String.prototype.trim`),
over the character list. -/
def trimChars (cs : List Char) : List Char :=
  ((cs.dropWhile Char.isWhitespace).reverse.dropWhile Char.isWhitespace).reverse

/-- Split a character list at every hyphen (JavaScript `split("-")`): the
pieces between hyphens, in order, empty pieces included. -/
def splitOnDash : List Char → List (List Char)
  | [] => [[]]
  | c :: rest =>
    if c = '-' then [] :: splitOnDash rest
    else
      match splitOnDash rest with
      | [] => [[c]]
      | w :: ws => (c :: w) :: ws

/-- Embeds `kebabToTitleCase` (src/strings.ts): trim, split on hyphens, drop
empty pieces, capitalize each word, join with spaces. -/
def kebabToTitleCase (value : String := "") : String :=
  String.intercalate " "
    ((((splitOnDash (trimChars value.data)).map String.mk).filter (fun s => s ≠ "")).map
      (fun s => upperCaseFirstCharacter s))

/-! ## types.ts (data model) -/

/-- Embeds the `Property` interface (src/types.ts): a name and an optional
type string (`string | DataType | undefined`). -/
structure Property where
  name : String
  type : Option String
deriving DecidableEq

/-- Embeds `DataType.BOOLEAN` (src/types.ts). -/
def BOOLEAN_TYPE : String := "boolean"

/-- Embeds `DEFAULT_DATA_TYPE` (src/types.ts). -/
def DEFAULT_DATA_TYPE : String := "any"

/-- Embeds `EVENT_EMITTER_TYPE` (src/types.ts). -/
def EVENT_EMITTER_TYPE : String := "EventEmitter"

/-- Embeds `ComponentInfo` (src/types.ts); the `kind` discriminator of the
source is played by the `AngularInfo` inductive below. -/
structure ComponentInfo where
  className : String
  selector : String
  inputs : List Property
  outputs : List Property
deriving DecidableEq

/-- Embeds `DirectiveInfo` (constructed in src/parser.ts `buildDirectiveInfo`
and consumed by src/snippet.ts). -/
structure DirectiveInfo where
  className : String
  selector : String
  inputs : List Property
  outputs : List Property
deriving DecidableEq

/-- Embeds `PipeInfo` (constructed in src/parser.ts `buildPipeInfo` and
consumed by src/snippet.ts). -/
structure PipeInfo where
  className : String
  name : String
deriving DecidableEq

/-- Embeds the union `AngularInfo = ComponentInfo | DirectiveInfo | PipeInfo`;
the constructor tag models the `kind : ArtifactKind` field. -/
inductive AngularInfo where
  | component (info : ComponentInfo)
  | directive (info : DirectiveInfo)
  | pipe (info : PipeInfo)
deriving DecidableEq

/-- Embeds one entry of the `Snippet` mapping (src/types.ts): the source
object maps exactly one title key to this record, so the single key is the
`title` field here.  The source field `prefix` is called `prefixes` because
its source name is a reserved token in Lean. -/
structure SnippetEntry where
  title : String
  body : List String
  description : String
  prefixes : List String
  scope : String
deriving DecidableEq

/-! ## snippet.ts -/

/-- Embeds the `INDENT` constant (src/snippet.ts). -/
def INDENT : String := "  "

/-- Embeds `formatToFunctionName` (src/snippet.ts): event name to handler
name with the `on` function-name FUNCTION_PREFIX constant. -/
def formatToFunctionName (value : String := "") : String :=
  if value = "" then value else "on" ++ upperCaseFirstCharacter value

/-- ASCII uppercase test, used by the `[A-Z][a-z]+` regex embedding. -/
def isUpperAZ (c : Char) : Bool := 'A' ≤ c && c ≤ 'Z'

/-- ASCII lowercase test, used by the `[A-Z][a-z]+` regex embedding. -/
def isLowerAZ (c : Char) : Bool := 'a' ≤ c && c ≤ 'z'

/-- Fueled form of the global regex search `name.match(/[A-Z][a-z]+/g)` used
by `formatComponentName`: scan left to right; at an uppercase letter
followed by at least one lowercase letter, take the maximal run of
lowercase letters after it as one match and resume after the match;
otherwise advance one character.  Each step consumes at least one
character, so fuel equal to the input length suffices; fuel only makes the
recursion structural. -/
def pascalWordsFuel : Nat → List Char → List String
  | 0, _ => []
  | _, [] => []
  | fuel + 1, c :: rest =>
    if isUpperAZ c && (match rest with | d :: _ => isLowerAZ d | [] => false) then
      String.mk (c :: rest.takeWhile isLowerAZ)
        :: pascalWordsFuel fuel (rest.dropWhile isLowerAZ)
    else
      pascalWordsFuel fuel rest

/-- All matches of `/[A-Z][a-z]+/g` in the character list. -/
def pascalWords (cs : List Char) : List String :=
  pascalWordsFuel cs.length cs

/-- Embeds `formatComponentName` (src/snippet.ts): join the `[A-Z][a-z]+`
matches with spaces; no match yields the empty string (the source's
`?? ""`). -/
def formatComponentName (name : String := "") : String :=
  String.intercalate " " (pascalWords name.data)

/-- Embeds `getTypeValues` (src/snippet.ts): choice values for the boolean
type, else the empty string. -/
def getTypeValues (type : Option String) : String :=
  if type = some BOOLEAN_TYPE then "|true,false|" else ""

/-- Embeds `propertyToAttribute` (src/snippet.ts): input property to an
attribute binding line at a tab-stop index. -/
def propertyToAttribute (property : Property) (index : Nat) : String :=
  let typeValues := getTypeValues property.type
  let value :=
    if typeValues ≠ "" then "\"$\x7b" ++ toString index ++ typeValues ++ "\x7d\""
    else "\"$" ++ toString index ++ "\""
  INDENT ++ "[" ++ property.name ++ "]=" ++ value

/-- Embeds `propertyToFunction` (src/snippet.ts): output property to an
event binding line at a tab-stop index. -/
def propertyToFunction (property : Property) (index : Nat) : String :=
  INDENT ++ "(" ++ property.name ++ ")=\"$" ++ toString index ++ ":"
    ++ formatToFunctionName property.name ++ "($event)\""

/-- Embeds `mapProperties` (src/snippet.ts): filter out falsy-named
properties, format the rest at indices `startIndex + i + 1` (`i` the
position in the filtered list), and return the lines with the next free
index.  The source's `.map((prop, i) => ...)` index is the `List.enum`
position here. -/
def mapProperties (properties : List Property)
    (formatter : Property → Nat → String) (startIndex : Nat) :
    List String × Nat :=
  let validProps := properties.filter (fun p => p.name ≠ "")
  let lines := validProps.enum.map (fun pi => formatter pi.2 (startIndex + pi.1 + 1))
  (lines, startIndex + validProps.length)

/-- Embeds `createComponentSnippet` (src/snippet.ts). -/
def createComponentSnippet (component : ComponentInfo) : Option SnippetEntry :=
  if component.selector = "" then none
  else
    let title := kebabToTitleCase component.selector
    let inputResult := mapProperties component.inputs propertyToAttribute 0
    let outputResult := mapProperties component.outputs propertyToFunction inputResult.2
    some
      { title := title
        body :=
          ("<" ++ component.selector ++ " ")
            :: (inputResult.1 ++ outputResult.1
              ++ ["></" ++ component.selector ++ ">",
                  "$" ++ toString (outputResult.2 + 1)])
        description := "A code snippet for " ++ formatComponentName component.className ++ "."
        prefixes := [component.selector]
        scope := "html" }

/-- Embeds `cleanDirectiveSelector` (src/snippet.ts): the global regex
replace of `^\[` and `\]$` removes one leading opening bracket and one
trailing closing bracket. -/
def cleanDirectiveSelector (selector : String) : String :=
  let afterStart :=
    match selector.data with
    | '[' :: rest => rest
    | cs => cs
  String.mk (if afterStart.getLast? = some ']' then afterStart.dropLast else afterStart)

/-- Embeds `createDirectiveSnippet` (src/snippet.ts). -/
def createDirectiveSnippet (directive : DirectiveInfo) : Option SnippetEntry :=
  if directive.selector = "" then none
  else
    let cleanSelector := cleanDirectiveSelector directive.selector
    let title := formatComponentName directive.className ++ " Directive"
    let inputResult := mapProperties directive.inputs propertyToAttribute 0
    let outputResult := mapProperties directive.outputs propertyToFunction inputResult.2
    some
      { title := title
        body :=
          cleanSelector
            :: (inputResult.1 ++ outputResult.1
              ++ ["$" ++ toString (outputResult.2 + 1)])
        description := "A directive snippet for " ++ formatComponentName directive.className ++ "."
        prefixes := [cleanSelector]
        scope := "html" }

/-- Embeds `createPipeSnippet` (src/snippet.ts). -/
def createPipeSnippet (pipe : PipeInfo) : Option SnippetEntry :=
  if pipe.name = "" then none
  else
    some
      { title := formatComponentName pipe.className ++ " Pipe"
        body := ["\x7b\x7b $1 | " ++ pipe.name ++ "$2 \x7d\x7d"]
        description := "A pipe snippet for " ++ formatComponentName pipe.className ++ "."
        prefixes := [pipe.name, "| " ++ pipe.name]
        scope := "html" }

/-- Embeds `createSnippet` (src/snippet.ts): dispatch on the artifact kind. -/
def createSnippet (info : AngularInfo) : Option SnippetEntry :=
  match info with
  | .component c => createComponentSnippet c
  | .directive d => createDirectiveSnippet d
  | .pipe p => createPipeSnippet p

/-! ## Syntax-tree model

The TypeScript compiler API supplies the syntax tree; this is the fragment
of it the extractor walks.  Only the node distinctions the source code
tests (`ts.isCallExpression`, `ts.isStringLiteral`, `ts.isObjectLiteralExpression`,
`ts.isPropertyAssignment`, `ts.isIdentifier`, `ts.isTypeReferenceNode`, ...)
are separate constructors; every other node falls into an `other` case. -/

/-- Callee position of a call or new expression: a plain identifier (with
its text) or any other expression. -/
inductive Callee where
  | ident (text : String)
  | otherCallee

mutual
/-- Expressions the extractor inspects: string literals
(`ts.isStringLiteral`), no-substitution template literals (string-literal-like
but not string literals), object literals, and everything else. -/
inductive Expr where
  | strLit (text : String)
  | templateNoSub (text : String)
  | objectLit (props : List ObjProp)
  | otherExpr

/-- Object-literal members: an explicit `key: value` assignment whose key is
a plain or private identifier, a shorthand property, or anything else
(computed keys, string-literal keys, spreads, ...). -/
inductive ObjProp where
  | assign (key : ObjKey) (value : Expr)
  | shorthand (name : String)
  | otherProp

/-- Keys of object-literal property assignments. -/
inductive ObjKey where
  | ident (text : String)
  | privateIdent (text : String)
  | otherKey
end

/-- A decorator node: its `expression` is a call expression, a new
expression, or some other expression. -/
inductive DecExpr where
  | call (callee : Callee) (args : List Expr)
  | newCall (callee : Callee) (args : List Expr)
  | otherDecExpr

/-- Decorator node (`ts.Decorator`): wraps its expression. -/
structure Decorator where
  expr : DecExpr

/-- Entity name of a type reference: a plain identifier or a qualified name
(whose source text is kept for `getText`). -/
inductive EntityName where
  | ident (text : String)
  | qualified (text : String)

/-- Type-annotation nodes: a type reference (`ts.isTypeReferenceNode`) with
its entity name and type-argument list, or any other type node carrying its
source text (keyword, union, array-suffix types, ...). -/
inductive TypeNode where
  | typeRef (typeName : EntityName) (typeArgs : List TypeNode)
  | otherType (text : String)

/-- Source text of an entity name (`getText`). -/
def entityText : EntityName → String
  | .ident t => t
  | .qualified t => t

mutual
/-- Source text of a type node (`node.getText(sourceCode)`), rendered
canonically: a reference prints its entity name and angle-bracketed
arguments, any other node keeps its stored text. -/
def typeNodeText : TypeNode → String
  | .otherType t => t
  | .typeRef n [] => entityText n
  | .typeRef n (a :: rest) => entityText n ++ "<" ++ typeNodeTextList (a :: rest) ++ ">"

/-- Comma-separated rendering of type-argument lists. -/
def typeNodeTextList : List TypeNode → String
  | [] => ""
  | [a] => typeNodeText a
  | a :: b :: rest => typeNodeText a ++ ", " ++ typeNodeTextList (b :: rest)
end

/-- Member names: a plain identifier or anything else (computed names,
string or numeric literal names, private identifiers, ...). -/
inductive MemberName where
  | ident (text : String)
  | otherName

/-- Class members: property declarations (with optionality marker, optional
type annotation, optional initializer and decorators), get accessors (whose
`type` is the declared return type), and all other members. -/
inductive Member where
  | property (name : MemberName) (questionToken : Bool) (typeAnnot : Option TypeNode)
      (init : Option Expr) (decorators : List Decorator)
  | getAccessor (name : MemberName) (typeAnnot : Option TypeNode) (decorators : List Decorator)
  | otherMember

/-- Class declaration node: optional name, decorators, members. -/
structure ClassDeclaration where
  name : Option String
  decorators : List Decorator
  members : List Member

/-- Any tree node, for the first-class search: a class declaration or some
other node with its children. -/
inductive TsNode where
  | classDecl (decl : ClassDeclaration)
  | other (children : List TsNode)

/-- A parsed source file: its top-level statements (the children
`ts.forEachChild` visits from the root). -/
structure SourceFile where
  statements : List TsNode

/-! ## nodes.ts -/

/-- Embeds `isPropertyOrGetAccessor` (src/nodes.ts). -/
def isPropertyOrGetAccessor : Member → Bool
  | .property _ _ _ _ _ => true
  | .getAccessor _ _ _ => true
  | .otherMember => false

/-- Embeds `ts.getDecorators` on a class member. -/
def memberDecorators : Member → List Decorator
  | .property _ _ _ _ ds => ds
  | .getAccessor _ _ ds => ds
  | .otherMember => []

/-- The member's `name` node. -/
def memberName : Member → MemberName
  | .property n _ _ _ _ => n
  | .getAccessor n _ _ => n
  | .otherMember => .otherName

/-- Embeds `findAssignedProperty` (src/nodes.ts): in an object literal, the
first property assignment whose identifier or private-identifier key equals
the name; absent for any other node and when no assignment matches
(shorthand properties never match). -/
def findAssignedProperty (node : Expr) (propertyName : String) : Option ObjProp :=
  match node with
  | .objectLit props =>
    props.find? (fun p =>
      match p with
      | .assign (.ident t) _ => t = propertyName
      | .assign (.privateIdent t) _ => t = propertyName
      | _ => false)
  | _ => none

/-- Embeds `isDecorator` (src/nodes.ts): the decorator's expression is a
call whose callee is an identifier with the decorator-type's text. -/
def isDecorator (d : Decorator) (type : String) : Bool :=
  match d.expr with
  | .call (.ident n) _ => n = type
  | _ => false

/-- Embeds `isComponent` (src/nodes.ts). -/
def isComponent (d : Decorator) : Bool :=
  match d.expr with
  | .call (.ident n) _ => n = "Component"
  | _ => false

/-- Embeds `isDirective` (src/nodes.ts). -/
def isDirective (d : Decorator) : Bool :=
  match d.expr with
  | .call (.ident n) _ => n = "Directive"
  | _ => false

/-- Embeds `isPipe` (src/nodes.ts). -/
def isPipe (d : Decorator) : Bool :=
  match d.expr with
  | .call (.ident n) _ => n = "Pipe"
  | _ => false

/-- Embeds `getAliasName` (src/nodes.ts): the text of the first call
argument when it is a string literal, else the empty string (also for
non-call expressions). -/
def getAliasName (node : DecExpr) : String :=
  match node with
  | .call _ args =>
    match args.head? with
    | some (.strLit t) => t
    | _ => ""
  | _ => ""

/-- Embeds `getClassName` (src/nodes.ts) on a class declaration:
`node.name?.text ?? ""`. -/
def getClassName (node : ClassDeclaration) : String :=
  node.name.getD ""

/-- Embeds `isPropertyLike` (src/nodes.ts). -/
def isPropertyLike : Member → Bool
  | .property _ _ _ _ _ => true
  | .getAccessor _ _ _ => true
  | .otherMember => false

/-- Embeds `getTypeNode` (src/nodes.ts): the member's type annotation. -/
def getTypeNode : Member → Option TypeNode
  | .property _ _ t _ _ => t
  | .getAccessor _ t _ => t
  | .otherMember => none

/-- JavaScript string disjunction `a || b`: `b` when `a` is empty. -/
def strOr (a b : String) : String :=
  if a = "" then b else a

/-- Embeds `getReferenceTypeName` (src/nodes.ts): the default for
non-property-like members and missing annotations; the source text of
non-reference annotations; for references, the default unless the entity
name is a plain identifier, then the `EventEmitter` unwrapping of the first
type argument, or for other names the first type argument's text, else the
base name, else the default. -/
def getReferenceTypeName (node : Member) (sourceCode : SourceFile) : String :=
  if !isPropertyLike node then DEFAULT_DATA_TYPE
  else
    match getTypeNode node with
    | none => DEFAULT_DATA_TYPE
    | some typeNode =>
      match typeNode with
      | .otherType t => strOr t DEFAULT_DATA_TYPE
      | .typeRef entityName typeArgs =>
        match entityName with
        | .qualified _ => DEFAULT_DATA_TYPE
        | .ident typeName =>
          let typeArgText :=
            match typeArgs.head? with
            | some arg => typeNodeText arg
            | none => ""
          if typeName = EVENT_EMITTER_TYPE then strOr typeArgText DEFAULT_DATA_TYPE
          else strOr typeArgText (strOr typeName DEFAULT_DATA_TYPE)

/-- Whether the member is a property declaration (`ts.isPropertyDeclaration`). -/
def isPropertyDeclaration : Member → Bool
  | .property _ _ _ _ _ => true
  | _ => false

/-- Whether the member is a get accessor (`ts.isGetAccessorDeclaration`). -/
def isGetAccessorDeclaration : Member → Bool
  | .getAccessor _ _ _ => true
  | _ => false

/-- Embeds `getTypeName` (src/nodes.ts): reference-type resolution for
property declarations and get accessors, the empty string otherwise. -/
def getTypeName (node : Member) (sourceCode : SourceFile) : String :=
  if isPropertyDeclaration node || isGetAccessorDeclaration node then
    getReferenceTypeName node sourceCode
  else ""

/-! ## parser.ts -/

/-- Embeds `SELECTOR_PROPERTY` (src/types.ts). -/
def SELECTOR_PROPERTY : String := "selector"

/-- Embeds `NAME_PROPERTY` (src/types.ts). -/
def NAME_PROPERTY : String := "name"

/-- Embeds `createSourceFile` (src/parser.ts): absent for empty text, else
the external TypeScript parser's tree (`parse` stands for
`ts.createSourceFile`, which always yields a tree for non-empty text). -/
def createSourceFile (parse : String → SourceFile) (sourceText : String := "") :
    Option SourceFile :=
  if sourceText = "" then none else some (parse sourceText)

/-- Loop of `extractStringPropertyFromDecorator` (src/parser.ts) over the
decorator's arguments: skip non-object-literal arguments; in each object
literal look up the property; return its initializer's text when the
initializer is string-literal-like, else keep scanning. -/
def extractFromArgs (args : List Expr) (propertyName : String) : String :=
  match args with
  | [] => ""
  | arg :: rest =>
    match findAssignedProperty arg propertyName with
    | some (.assign _ (.strLit t)) => t
    | some (.assign _ (.templateNoSub t)) => t
    | _ => extractFromArgs rest propertyName

/-- Embeds `extractStringPropertyFromDecorator` (src/parser.ts). -/
def extractStringPropertyFromDecorator (decorator : Decorator) (propertyName : String) :
    String :=
  match decorator.expr with
  | .call _ args => extractFromArgs args propertyName
  | .newCall _ args => extractFromArgs args propertyName
  | .otherDecExpr => ""

/-- Embeds `findDecorator` (src/parser.ts): the first decorator on the class
satisfying the predicate. -/
def findDecorator (node : ClassDeclaration) (pred : Decorator → Bool) :
    Option Decorator :=
  node.decorators.find? pred

/-- Embeds `getSelectorName` (src/parser.ts). -/
def getSelectorName (node : ClassDeclaration) (pred : Decorator → Bool) : String :=
  match findDecorator node pred with
  | some decorator => extractStringPropertyFromDecorator decorator SELECTOR_PROPERTY
  | none => ""

/-- Embeds `getPipeName` (src/parser.ts). -/
def getPipeName (node : ClassDeclaration) : String :=
  match findDecorator node isPipe with
  | some decorator => extractStringPropertyFromDecorator decorator NAME_PROPERTY
  | none => ""

/-- The property-name computation inside `extractDecoratorProperties`
(src/parser.ts):
`nodes.getAliasName(decorator.expression) || (ts.isIdentifier(member.name) ? member.name.text : "")`. -/
def entryName (decorator : Decorator) (member : Member) : String :=
  strOr (getAliasName decorator.expr)
    (match memberName member with
     | .ident t => t
     | .otherName => "")

/-- Embeds `extractDecoratorProperties` (src/parser.ts): over the
property-or-get-accessor members, one extracted `Property` per decorator of
the requested type, named by alias-or-identifier and typed by the
resolver. -/
def extractDecoratorProperties (classNode : ClassDeclaration) (decoratorType : String)
    (sourceCode : SourceFile) : List Property :=
  (classNode.members.filter isPropertyOrGetAccessor).flatMap (fun member =>
    ((memberDecorators member).filter (fun d => isDecorator d decoratorType)).map
      (fun decorator =>
        { name := entryName decorator member
          type := some (getTypeName member sourceCode) }))

/-- Embeds `buildComponentInfo` (src/parser.ts). -/
def buildComponentInfo (classNode : ClassDeclaration) (sourceCode : SourceFile) :
    ComponentInfo :=
  { className := getClassName classNode
    selector := getSelectorName classNode isComponent
    inputs := extractDecoratorProperties classNode "Input" sourceCode
    outputs := extractDecoratorProperties classNode "Output" sourceCode }

/-- Embeds `buildDirectiveInfo` (src/parser.ts). -/
def buildDirectiveInfo (classNode : ClassDeclaration) (sourceCode : SourceFile) :
    DirectiveInfo :=
  { className := getClassName classNode
    selector := getSelectorName classNode isDirective
    inputs := extractDecoratorProperties classNode "Input" sourceCode
    outputs := extractDecoratorProperties classNode "Output" sourceCode }

/-- Embeds `buildPipeInfo` (src/parser.ts). -/
def buildPipeInfo (classNode : ClassDeclaration) : PipeInfo :=
  { className := getClassName classNode
    name := getPipeName classNode }

/-- Embeds the `visit` recursion of `findFirstClass` (src/parser.ts):
pre-order search of a node list for the first class declaration. -/
def findFirstClassList : List TsNode → Option ClassDeclaration
  | [] => none
  | .classDecl c :: _ => some c
  | .other children :: rest =>
    match findFirstClassList children with
    | some c => some c
    | none => findFirstClassList rest

/-- Embeds `findFirstClass` (src/parser.ts). -/
def findFirstClass (sourceCode : SourceFile) : Option ClassDeclaration :=
  findFirstClassList sourceCode.statements

/-- Embeds `parseComponent` (src/parser.ts). -/
def parseComponent (parse : String → SourceFile) (fileData : String := "") :
    Option ComponentInfo :=
  match createSourceFile parse fileData with
  | none => none
  | some sourceCode =>
    match findFirstClass sourceCode with
    | none => none
    | some classNode =>
      if (findDecorator classNode isComponent).isSome then
        some (buildComponentInfo classNode sourceCode)
      else none

/-- Embeds `parseDirective` (src/parser.ts). -/
def parseDirective (parse : String → SourceFile) (fileData : String := "") :
    Option DirectiveInfo :=
  match createSourceFile parse fileData with
  | none => none
  | some sourceCode =>
    match findFirstClass sourceCode with
    | none => none
    | some classNode =>
      if (findDecorator classNode isDirective).isSome then
        some (buildDirectiveInfo classNode sourceCode)
      else none

/-- Embeds `parsePipe` (src/parser.ts). -/
def parsePipe (parse : String → SourceFile) (fileData : String := "") :
    Option PipeInfo :=
  match createSourceFile parse fileData with
  | none => none
  | some sourceCode =>
    match findFirstClass sourceCode with
    | none => none
    | some classNode =>
      if (findDecorator classNode isPipe).isSome then
        some (buildPipeInfo classNode)
      else none

/-- Embeds `parseAngularFile` (src/parser.ts): probe the Component,
Directive and Pipe decorators in that order on the first class found. -/
def parseAngularFile (parse : String → SourceFile) (fileData : String := "") :
    Option AngularInfo :=
  match createSourceFile parse fileData with
  | none => none
  | some sourceCode =>
    match findFirstClass sourceCode with
    | none => none
    | some classNode =>
      if (findDecorator classNode isComponent).isSome then
        some (.component (buildComponentInfo classNode sourceCode))
      else if (findDecorator classNode isDirective).isSome then
        some (.directive (buildDirectiveInfo classNode sourceCode))
      else if (findDecorator classNode isPipe).isSome then
        some (.pipe (buildPipeInfo classNode))
      else none

/-! ## Concrete fixtures -/

/-- The round-trip scenario metadata: `SaveCancelButtonComponent`. -/
def saveCancelButtonInfo : ComponentInfo :=
  { className := "SaveCancelButtonComponent"
    selector := "save-cancel-button"
    inputs := [⟨"label", some "string"⟩, ⟨"disabled", some "boolean"⟩,
      ⟨"icon", some "string"⟩, ⟨"color", some "Color"⟩, ⟨"tooltip", some "string|undefined"⟩]
    outputs := [⟨"cancel", some "boolean"⟩, ⟨"save", some "any"⟩, ⟨"draft", some "any"⟩] }

/-- The directive scenario metadata: `HighlightDirective`. -/
def highlightDirectiveInfo : DirectiveInfo :=
  { className := "HighlightDirective"
    selector := "[appHighlight]"
    inputs := [⟨"appHighlight", some "string"⟩, ⟨"highlightColor", some "string"⟩]
    outputs := [⟨"highlighted", some "boolean"⟩] }

/-- An `@Input()` decorator with no arguments. -/
def inputDec : Decorator := ⟨.call (.ident "Input") []⟩

/-- A source file with no nodes, passed where `getText` context is needed. -/
def emptySourceFile : SourceFile := ⟨[]⟩

/-- A parse oracle whose tree never contains a class declaration. -/
def classlessParse : String → SourceFile := fun _ => ⟨[.other []]⟩

/-- A `@Component({selector: "multi"})` decorator. -/
def componentDec : Decorator :=
  ⟨.call (.ident "Component") [.objectLit [.assign (.ident "selector") (.strLit "multi")]]⟩

/-- A `@Directive({selector: "[multi]"})` decorator. -/
def directiveDec : Decorator :=
  ⟨.call (.ident "Directive") [.objectLit [.assign (.ident "selector") (.strLit "[multi]")]]⟩

/-- A class carrying decorators of two roles: Component first in priority. -/
def multiRoleClass : ClassDeclaration :=
  { name := some "MultiComponent"
    decorators := [directiveDec, componentDec]
    members := [] }

/-- A parse oracle returning the two-role class for every input. -/
def multiRoleParse : String → SourceFile := fun _ => ⟨[.classDecl multiRoleClass]⟩

/-- Arguments of a decorator call whose first argument is not a non-empty
string literal (the alias-absent side condition of the alias-precedence
claim). -/
def noAliasArg (args : List Expr) : Prop :=
  ∀ (s : String) (rest : List Expr), args = Expr.strLit s :: rest → s = ""

/-! ## Claims -/

/-- C1: for the `SaveCancelButtonComponent` metadata, component-snippet
synthesis returns the record whose sole title is `Save Cancel Button`,
whose body line 2 is the `label` attribute binding at tab stop 1, whose
body line 3 is the boolean choice binding for `disabled` at tab stop 2, and
whose final body line is the exit placeholder `$9`.  (The source snippet
object has exactly one key; it is the `title` field of the model.) -/
theorem saveCancelButton_roundtrip :
    createComponentSnippet saveCancelButtonInfo = some
      { title := "Save Cancel Button"
        body := ["<save-cancel-button ",
          "  [label]=\"$1\"",
          "  [disabled]=\"$\x7b2|true,false|\x7d\"",
          "  [icon]=\"$3\"",
          "  [color]=\"$4\"",
          "  [tooltip]=\"$5\"",
          "  (cancel)=\"$6:onCancel($event)\"",
          "  (save)=\"$7:onSave($event)\"",
          "  (draft)=\"$8:onDraft($event)\"",
          "></save-cancel-button>",
          "$9"]
        description := "A code snippet for Save Cancel Button Component."
        prefixes := ["save-cancel-button"]
        scope := "html" } := by
  decide

/-- C2: for any element-role metadata with a non-empty selector, the body is
the opening-tag line, the input binding lines of the non-empty-named inputs
at indices 1 through `m`, the output binding lines of the non-empty-named
outputs at indices `m+1` through `m+n`, the closing-tag line, and the exit
placeholder numbered `m+n+1`; empty-named properties are filtered out before
index allocation. -/
theorem componentSnippet_index_allocation (c : ComponentInfo) (h : c.selector ≠ "") :
    createComponentSnippet c = some
      { title := kebabToTitleCase c.selector
        body :=
          ("<" ++ c.selector ++ " ")
            :: ((c.inputs.filter (fun p => p.name ≠ "")).enum.map
                  (fun pi => propertyToAttribute pi.2 (pi.1 + 1))
              ++ (c.outputs.filter (fun p => p.name ≠ "")).enum.map
                  (fun pi => propertyToFunction pi.2
                    ((c.inputs.filter (fun p => p.name ≠ "")).length + pi.1 + 1))
              ++ ["></" ++ c.selector ++ ">",
                  "$" ++ toString ((c.inputs.filter (fun p => p.name ≠ "")).length
                    + (c.outputs.filter (fun p => p.name ≠ "")).length + 1)])
        description := "A code snippet for " ++ formatComponentName c.className ++ "."
        prefixes := [c.selector]
        scope := "html" } := by
  simp only [createComponentSnippet, mapProperties, if_neg h]
  simp [Nat.zero_add]

/-- Witness for C2 at the `SaveCancelButtonComponent` metadata
(`m = 5`, `n = 3`, exit placeholder 9). -/
theorem componentSnippet_index_allocation_witness :
    createComponentSnippet saveCancelButtonInfo = some
      { title := kebabToTitleCase saveCancelButtonInfo.selector
        body :=
          ("<" ++ saveCancelButtonInfo.selector ++ " ")
            :: ((saveCancelButtonInfo.inputs.filter (fun p => p.name ≠ "")).enum.map
                  (fun pi => propertyToAttribute pi.2 (pi.1 + 1))
              ++ (saveCancelButtonInfo.outputs.filter (fun p => p.name ≠ "")).enum.map
                  (fun pi => propertyToFunction pi.2
                    ((saveCancelButtonInfo.inputs.filter (fun p => p.name ≠ "")).length + pi.1 + 1))
              ++ ["></" ++ saveCancelButtonInfo.selector ++ ">",
                  "$" ++ toString ((saveCancelButtonInfo.inputs.filter (fun p => p.name ≠ "")).length
                    + (saveCancelButtonInfo.outputs.filter (fun p => p.name ≠ "")).length + 1)])
        description := "A code snippet for " ++ formatComponentName saveCancelButtonInfo.className ++ "."
        prefixes := [saveCancelButtonInfo.selector]
        scope := "html" } :=
  componentSnippet_index_allocation saveCancelButtonInfo (by decide)

/-- C3 counterexample: a decorated property with no type annotation and a
string-literal initializer resolves to `any`, not to `string` as the claim
states. -/
theorem noAnnotation_counterexample :
    extractDecoratorProperties
      { name := some "LabelComponent"
        decorators := []
        members := [.property (.ident "label") false none (some (.strLit "hello")) [inputDec]] }
      "Input" emptySourceFile = [{ name := "label", type := some "any" }]
    ∧ (some "any" : Option String) ≠ some "string" := by
  decide

/-- C3 amended: a decorated property with no explicit type annotation
resolves to the default `any` whatever its initializer is; no literal-based
inference is performed. -/
theorem noAnnotation_defaults_any (n : MemberName) (q : Bool) (i : Option Expr)
    (ds : List Decorator) (src : SourceFile) :
    getTypeName (.property n q none i ds) src = "any" :=
  rfl

/-- C4 counterexample: the optional member `tooltip?: string` resolves to
`string`, not to the `string|undefined` the claim states. -/
theorem optionalMarker_counterexample :
    getTypeName (.property (.ident "tooltip") true (some (.otherType "string")) none [inputDec])
      emptySourceFile = "string"
    ∧ ("string" : String) ≠ "string|undefined" := by
  decide

/-- C4 amended: the optionality marker is dropped — the resolved type string
of a property does not depend on its question token, so no `|undefined`
suffix is ever appended for it. -/
theorem optionalMarker_ignored (n : MemberName) (t : Option TypeNode) (i : Option Expr)
    (ds : List Decorator) (src : SourceFile) :
    getTypeName (.property n true t i ds) src = getTypeName (.property n false t i ds) src :=
  rfl

/-- C5: the extracted property name of a decorated member is the decorator
call's first argument when that argument is a non-empty string literal
(the alias), and otherwise the member's own identifier text, empty for a
non-identifier member name. -/
theorem alias_precedence (member : Member) (calleeId : Callee) (a : String)
    (rest args : List Expr) (ha : a ≠ "") (hno : noAliasArg args) :
    entryName ⟨.call calleeId (.strLit a :: rest)⟩ member = a
    ∧ entryName ⟨.call calleeId args⟩ member =
        (match memberName member with
         | .ident t => t
         | .otherName => "") := by
  constructor
  · simp [entryName, getAliasName, strOr, ha]
  · match args with
    | [] => simp [entryName, getAliasName, strOr]
    | .strLit s :: tl =>
      have hs : s = "" := hno s tl rfl
      simp [entryName, getAliasName, strOr, hs]
    | .templateNoSub _ :: tl => simp [entryName, getAliasName, strOr]
    | .objectLit _ :: tl => simp [entryName, getAliasName, strOr]
    | .otherExpr :: tl => simp [entryName, getAliasName, strOr]

/-- Witness for C5: `@Input('appHighlight') defaultColor` resolves to the
alias, and `@Input() defaultColor` to the identifier. -/
theorem alias_precedence_witness :
    entryName ⟨.call (.ident "Input") [.strLit "appHighlight"]⟩
        (.property (.ident "defaultColor") false none none []) = "appHighlight"
    ∧ entryName ⟨.call (.ident "Input") []⟩
        (.property (.ident "defaultColor") false none none []) = "defaultColor" :=
  alias_precedence (.property (.ident "defaultColor") false none none [])
    (.ident "Input") "appHighlight" [] [] (by decide)
    (fun s rest h => by cases h)

/-- C6: extraction is total (the four entry points are Lean functions) and
returns absent both for the empty input — for every parse oracle, so no
tree is consulted — and for any input whose tree has no class
declaration. -/
theorem extraction_absent_on_empty_or_classless (parse : String → SourceFile) (s : String)
    (hnc : findFirstClass (parse s) = none) :
    (parseComponent parse "" = none ∧ parseDirective parse "" = none
      ∧ parsePipe parse "" = none ∧ parseAngularFile parse "" = none)
    ∧ (parseComponent parse s = none ∧ parseDirective parse s = none
      ∧ parsePipe parse s = none ∧ parseAngularFile parse s = none) := by
  refine ⟨⟨rfl, rfl, rfl, rfl⟩, ?_⟩
  by_cases hs : s = ""
  · subst hs; exact ⟨rfl, rfl, rfl, rfl⟩
  · have h1 : createSourceFile parse s = some (parse s) := by simp [createSourceFile, hs]
    refine ⟨?_, ?_, ?_, ?_⟩ <;>
      simp [parseComponent, parseDirective, parsePipe, parseAngularFile, h1, hnc]

/-- Witness for C6 with a class-free parse result on a non-empty input. -/
theorem extraction_absent_witness :
    (parseComponent classlessParse "" = none ∧ parseDirective classlessParse "" = none
      ∧ parsePipe classlessParse "" = none ∧ parseAngularFile classlessParse "" = none)
    ∧ (parseComponent classlessParse "const x = 1;" = none
      ∧ parseDirective classlessParse "const x = 1;" = none
      ∧ parsePipe classlessParse "const x = 1;" = none
      ∧ parseAngularFile classlessParse "const x = 1;" = none) :=
  extraction_absent_on_empty_or_classless classlessParse "const x = 1;"
    (by simp [findFirstClass, classlessParse, findFirstClassList])

/-- C7: on a non-empty input whose tree has a first class declaration, the
combined entry point probes Component, then Directive, then Pipe, returning
the metadata of the first decorator present and absent when none is. -/
theorem parseAngularFile_priority (parse : String → SourceFile) (s : String)
    (classNode : ClassDeclaration) (hs : s ≠ "")
    (hc : findFirstClass (parse s) = some classNode) :
    parseAngularFile parse s =
      if (findDecorator classNode isComponent).isSome then
        some (.component (buildComponentInfo classNode (parse s)))
      else if (findDecorator classNode isDirective).isSome then
        some (.directive (buildDirectiveInfo classNode (parse s)))
      else if (findDecorator classNode isPipe).isSome then
        some (.pipe (buildPipeInfo classNode))
      else none := by
  have h1 : createSourceFile parse s = some (parse s) := by simp [createSourceFile, hs]
  simp [parseAngularFile, h1, hc]

/-- Witness for C7 on a class decorated with both `@Directive` and
`@Component`: the Component role wins. -/
theorem parseAngularFile_priority_witness :
    parseAngularFile multiRoleParse "class MultiComponent {}" =
      some (.component (buildComponentInfo multiRoleClass
        (multiRoleParse "class MultiComponent {}"))) :=
  parseAngularFile_priority multiRoleParse "class MultiComponent {}" multiRoleClass
    (by decide) (by simp [findFirstClass, multiRoleParse, findFirstClassList])

/-- C8: synthesis yields absent — not an error — for element or modifier
metadata with an empty selector and for transform metadata with an empty
name, whatever the inputs and outputs lists hold. -/
theorem empty_identifier_yields_absent (c : ComponentInfo) (d : DirectiveInfo) (p : PipeInfo)
    (hc : c.selector = "") (hd : d.selector = "") (hp : p.name = "") :
    createComponentSnippet c = none ∧ createDirectiveSnippet d = none
      ∧ createPipeSnippet p = none := by
  refine ⟨?_, ?_, ?_⟩ <;>
    simp [createComponentSnippet, createDirectiveSnippet, createPipeSnippet, hc, hd, hp]

/-- Witness for C8 with non-empty input and output lists. -/
theorem empty_identifier_yields_absent_witness :
    createComponentSnippet
        { className := "AComponent", selector := "",
          inputs := [⟨"label", some "string"⟩], outputs := [⟨"save", some "any"⟩] } = none
    ∧ createDirectiveSnippet
        { className := "ADirective", selector := "",
          inputs := [⟨"label", some "string"⟩], outputs := [⟨"save", some "any"⟩] } = none
    ∧ createPipeSnippet { className := "APipe", name := "" } = none :=
  empty_identifier_yields_absent
    { className := "AComponent", selector := "",
      inputs := [⟨"label", some "string"⟩], outputs := [⟨"save", some "any"⟩] }
    { className := "ADirective", selector := "",
      inputs := [⟨"label", some "string"⟩], outputs := [⟨"save", some "any"⟩] }
    { className := "APipe", name := "" } rfl rfl rfl

/-- C9: the `HighlightDirective` metadata synthesizes to title
`Highlight Directive Directive`, first body line `appHighlight` (one leading
`[` and one trailing `]` stripped), and an output binding line whose handler
name is `onHighlighted`. -/
theorem highlightDirective_scenario :
    createDirectiveSnippet highlightDirectiveInfo = some
      { title := "Highlight Directive Directive"
        body := ["appHighlight",
          "  [appHighlight]=\"$1\"",
          "  [highlightColor]=\"$2\"",
          "  (highlighted)=\"$3:onHighlighted($event)\"",
          "$4"]
        description := "A directive snippet for Highlight Directive."
        prefixes := ["appHighlight"]
        scope := "html" } := by
  decide

/-- C10: a decorated member annotated with bare `EventEmitter` (no type
arguments) resolves to `any`, while any other named type reference without
type arguments resolves to its base name verbatim — for property
declarations and get accessors alike. -/
theorem bare_reference_resolution (n : MemberName) (q : Bool) (i : Option Expr)
    (ds : List Decorator) (src : SourceFile) (base : String)
    (hb : base ≠ "EventEmitter") (hb0 : base ≠ "") :
    getTypeName (.property n q (some (.typeRef (.ident "EventEmitter") [])) i ds) src = "any"
    ∧ getTypeName (.property n q (some (.typeRef (.ident base) [])) i ds) src = base
    ∧ getTypeName (.getAccessor n (some (.typeRef (.ident "EventEmitter") [])) ds) src = "any"
    ∧ getTypeName (.getAccessor n (some (.typeRef (.ident base) [])) ds) src = base := by
  refine ⟨rfl, ?_, rfl, ?_⟩ <;>
    simp [getTypeName, getReferenceTypeName, isPropertyDeclaration, isGetAccessorDeclaration,
      isPropertyLike, getTypeNode, strOr, EVENT_EMITTER_TYPE, DEFAULT_DATA_TYPE,
      typeNodeText, hb, hb0]

/-- Witness for C10 at `Observable`. -/
theorem bare_reference_resolution_witness :
    getTypeName (.property (.ident "save") false
        (some (.typeRef (.ident "EventEmitter") [])) none []) emptySourceFile = "any"
    ∧ getTypeName (.property (.ident "save") false
        (some (.typeRef (.ident "Observable") [])) none []) emptySourceFile = "Observable"
    ∧ getTypeName (.getAccessor (.ident "save")
        (some (.typeRef (.ident "EventEmitter") [])) []) emptySourceFile = "any"
    ∧ getTypeName (.getAccessor (.ident "save")
        (some (.typeRef (.ident "Observable") [])) []) emptySourceFile = "Observable" :=
  bare_reference_resolution (.ident "save") false none [] emptySourceFile "Observable"
    (by decide) (by decide)

end ASG
